import Mathlib

/-!
Verification development for the `mcio_remote` networking core
(`mcio_remote/network.py`): packet model, decode, the one-slot latest-item
queue, and the Controller sequence-matching logic.

Modelling conventions:
* Python `int` is `Int`, `float` is `Rat`, `bytes` is `List Nat`.
* A Python value that may be `None` is an `Option`.
* Logging (`LOG.info` / `LOG.error`) is modelled by returning a `List String`
  of log lines alongside the result.
* Threads are modelled as explicit step functions over the `Controller`
  state; blocking reads are modelled by feeding the function the stream of
  values it would receive.
-/

/-- Protocol version constant `MCIO_PROTOCOL_VERSION = 0` from network.py. -/
def MCIO_PROTOCOL_VERSION : Int := 0

/-- The GLFW constant `glfw.CURSOR_NORMAL` (212993), used as the
`cursor_mode` default in `StatePacket`. -/
def GLFW_CURSOR_NORMAL : Int := 212993

/-- An inventory slot entry. The Python dataclass annotates the inventories
as bare `List`, so the element type is unconstrained; no claim inspects the
elements, so they are modelled as an abstract one-constructor type. -/
inductive InventoryItem : Type where
  | item : InventoryItem
deriving DecidableEq, Repr

/-- The `StatePacket` dataclass: state packets received from MCio. Field
names and defaults follow network.py lines 28-42. (The source has a stray
trailing comma after the `cursor_mode` default, making the Python default a
one-element tuple; the intended integer default is used here. No claim
depends on the `cursor_mode` default.) -/
structure StatePacket where
  version : Int := MCIO_PROTOCOL_VERSION
  sequence : Int := 0
  last_action_sequence : Int := 0
  frame_png : List Nat := []
  health : Rat := 0
  cursor_mode : Int := GLFW_CURSOR_NORMAL
  cursor_pos : Int × Int := (0, 0)
  player_pos : Rat × Rat × Rat := (0, 0, 0)
  player_pitch : Rat := 0
  player_yaw : Rat := 0
  inventory_main : List InventoryItem := []
  inventory_armor : List InventoryItem := []
  inventory_offhand : List InventoryItem := []
deriving DecidableEq, Repr

/-- The `ActionPacket` dataclass: action packets sent by the agent to MCio
(network.py lines 83-102). -/
structure ActionPacket where
  version : Int := MCIO_PROTOCOL_VERSION
  sequence : Int := 0
  key_reset : Bool := false
  keys : List (Int × Int) := []
  mouse_buttons : List (Int × Int) := []
  mouse_pos : List (Rat × Rat) := []
deriving DecidableEq, Repr

/-- The result of `cbor2.loads` on a state payload: a map from field names
to values. Known `StatePacket` field names are modelled as optional typed
fields (absent key = `none`); any keys that are not `StatePacket` field
names are collected in `extra`. Python dataclasses do not validate value
types at construction, so value typing is assumed by the input type. -/
structure StateDict where
  version : Option Int := none
  sequence : Option Int := none
  last_action_sequence : Option Int := none
  frame_png : Option (List Nat) := none
  health : Option Rat := none
  cursor_mode : Option Int := none
  cursor_pos : Option (Int × Int) := none
  player_pos : Option (Rat × Rat × Rat) := none
  player_pitch : Option Rat := none
  player_yaw : Option Rat := none
  inventory_main : Option (List InventoryItem) := none
  inventory_armor : Option (List InventoryItem) := none
  inventory_offhand : Option (List InventoryItem) := none
  extra : List String := []
deriving DecidableEq, Repr

/-- Log line `LOG.error(f"CBOR load error: ...")` (network.py line 49);
the exception text is abstracted. -/
def cborLoadErrorLog : String := "CBOR load error"

/-- Log lines emitted when `cls(**decoded_dict)` raises, i.e. when the
received packet does not match `StatePacket` (network.py lines 54-60);
the exception text and raw-packet dump are abstracted. -/
def decodeErrorLogs : List String :=
  ["StatePacket decode error", "Raw packet:"]

/-- `StatePacket.unpack` (network.py lines 44-63). The input is the result
of `cbor2.loads`: `none` models a CBOR load exception. On success the
decoded dict is splatted into the dataclass constructor: this raises a
`TypeError` (caught; `None` returned) exactly when the dict holds a keyword
that is not a `StatePacket` field, i.e. when `extra` is nonempty; present
fields override the dataclass defaults, absent fields keep them. Returns
the decoded packet (or `none`) together with the log lines emitted. -/
def StatePacket.unpack (data : Option StateDict) : Option StatePacket × List String :=
  match data with
  | none => (none, [cborLoadErrorLog])
  | some d =>
    if d.extra = [] then
      (some
        { version := d.version.getD MCIO_PROTOCOL_VERSION
          sequence := d.sequence.getD 0
          last_action_sequence := d.last_action_sequence.getD 0
          frame_png := d.frame_png.getD []
          health := d.health.getD 0
          cursor_mode := d.cursor_mode.getD GLFW_CURSOR_NORMAL
          cursor_pos := d.cursor_pos.getD (0, 0)
          player_pos := d.player_pos.getD (0, 0, 0)
          player_pitch := d.player_pitch.getD 0
          player_yaw := d.player_yaw.getD 0
          inventory_main := d.inventory_main.getD []
          inventory_armor := d.inventory_armor.getD []
          inventory_offhand := d.inventory_offhand.getD [] }, [])
    else
      (none, decodeErrorLogs)

/-- `_LatestItemQueue.put` (network.py lines 336-348): the slot (a queue of
maxsize 1) is modelled as `Option α`. Any current item is discarded, the new
item stored; returns the new slot and whether a previous item was dropped. -/
def LatestItemQueue.put {α : Type} (slot : Option α) (item : α) : Option α × Bool :=
  match slot with
  | some _ => (some item, true)
  | none => (some item, false)

/-- `queue.Queue.get` on the one-slot queue: blocks when empty (modelled as
`none`); otherwise removes and returns the stored item. -/
def LatestItemQueue.get {α : Type} (slot : Option α) : Option (α × Option α) :=
  match slot with
  | none => none
  | some x => some (x, none)

/-- Iterated `put` with no interleaving `get`: fold the puts left to right,
keeping the resulting slot. -/
def LatestItemQueue.putAll {α : Type} (slot : Option α) (items : List α) : Option α :=
  items.foldl (fun s it => (LatestItemQueue.put s it).1) slot

/-- The mutable state of a `Controller` (network.py lines 166-203). The
action queue is a FIFO list, the state queue the one-item slot. The
throughput counters (`TrackPerSecond`) only emit periodic rate logs and are
not modelled. -/
structure Controller where
  state_sequence_last_received : Option Int
  state_sequence_last_processed : Option Int
  action_sequence_last_queued : Int
  match_sequences : Bool
  action_queue : List ActionPacket
  state_queue : Option StatePacket
deriving DecidableEq, Repr

/-- `Controller.__init__` (network.py lines 175-203). Note line 179 of the
source assigns `self.match_sequences = True` unconditionally: the
constructor parameter `match_sequences` is never read (and neither is
`host`). -/
def Controller.init (_host : String) (_match_sequences : Bool) : Controller :=
  { state_sequence_last_received := none
    state_sequence_last_processed := none
    action_sequence_last_queued := 0
    match_sequences := true
    action_queue := []
    state_queue := none }

/-- Log line `Skip-State ...` (network.py lines 230-233). -/
def skipStateLog (lastSent serverLastProcessed : Int) : String :=
  s!"Skip-State last_sent={lastSent} server_last_processed={serverLastProcessed}"

/-- Log line `State packets dropped: ...` (network.py line 312). -/
def droppedLog (tag : String) (nDropped : Int) : String :=
  s!"State packets dropped: step={tag} n_dropped={nDropped}"

/-- Log line `Processing first state packet: ...` (network.py line 259). -/
def processFirstLog (seq : Int) : String :=
  s!"Processing first state packet: sequence={seq}"

/-- Log line `Recv first state packet: ...` (network.py line 289). -/
def recvFirstLog (seq : Int) : String :=
  s!"Recv first state packet: sequence={seq}"

/-- `Controller._track_dropped` (network.py lines 304-312): pure log
computation. When `last_sequence` is `None` or the new sequence does not
increase, this is a start or reset and nothing is logged; when the sequence
jumps by more than one, the drop count is logged. -/
def Controller.track_dropped (tag : String) (state : StatePacket)
    (last_sequence : Option Int) : List String :=
  match last_sequence with
  | none => []
  | some l =>
    if state.sequence ≤ l then []
    else if l + 1 < state.sequence then [droppedLog tag (state.sequence - l - 1)]
    else []

/-- `Controller.send_action` (network.py lines 238-247): increment
`action_sequence_last_queued`, stamp it into the action, enqueue the packet.
The second component is the stamped packet (`action.sequence` is mutated in
place in Python); the third models the Python return value — the function
body has no return statement, so it is `none`. -/
def Controller.send_action (c : Controller) (a : ActionPacket) :
    Controller × ActionPacket × Option Int :=
  let seq := c.action_sequence_last_queued + 1
  let a' := { a with sequence := seq }
  ({ c with action_sequence_last_queued := seq,
            action_queue := c.action_queue ++ [a'] }, a', none)

/-- Iterated `send_action` over a list of actions, collecting the assigned
sequence numbers in order. -/
def Controller.send_actions (c : Controller) : List ActionPacket → Controller × List Int
  | [] => (c, [])
  | a :: rest =>
    let r := Controller.send_action c a
    let r' := Controller.send_actions r.1 rest
    (r'.1, r.2.1.sequence :: r'.2)

/-- The body of `Controller.recv_state` after the blocking `get` returned
state `s` (network.py lines 258-264): log the first packet, compute drop
statistics against `state_sequence_last_processed`, then overwrite it with
the new sequence. Returns the updated controller and the log lines. -/
def Controller.process_state (c : Controller) (s : StatePacket) : Controller × List String :=
  let firstLogs := if c.state_sequence_last_processed.isNone
    then [processFirstLog s.sequence] else []
  let dropLogs := Controller.track_dropped "Process" s c.state_sequence_last_processed
  ({ c with state_queue := none,
            state_sequence_last_processed := some s.sequence },
   firstLogs ++ dropLogs)

/-- `Controller.recv_state` (network.py lines 249-264): pull the most recent
state from the slot (blocking when empty, modelled as `none`), then run the
bookkeeping of `process_state`. -/
def Controller.recv_state (c : Controller) : Option (Controller × StatePacket × List String) :=
  match c.state_queue with
  | none => none
  | some s =>
    let r := Controller.process_state c s
    some (r.1, s, r.2)

/-- The matching loop of `Controller.send_and_recv` (network.py lines
209-233). `seq` is `self.action_sequence_last_queued` at loop entry (no
other sender runs, so the attribute is constant across iterations).
`states` is the stream of packets successive blocking `recv_state` calls
deliver; an exhausted stream models the loop still waiting (`none`).
Returns the final controller, the returned state, the list of skipped
(stale) states, and the accumulated log lines. -/
def Controller.send_and_recv_aux (seq : Int) :
    Controller → List StatePacket →
    Option (Controller × StatePacket × List StatePacket × List String)
  | _, [] => none
  | c, s :: rest =>
    let r := Controller.process_state c s
    if seq ≤ s.last_action_sequence then
      some (r.1, s, [], r.2)
    else
      match Controller.send_and_recv_aux seq r.1 rest with
      | none => none
      | some (c'', st, skipped, logs') =>
        some (c'', st, s :: skipped,
          r.2 ++ skipStateLog seq s.last_action_sequence :: logs')

/-- `Controller.send_and_recv` (network.py lines 205-236): enqueue the
action (updating `action_sequence_last_queued`), then, if `match_sequences`
is set, keep receiving until a state with
`last_action_sequence ≥ action_sequence_last_queued` arrives; otherwise
return the first received state. -/
def Controller.send_and_recv (c : Controller) (a : ActionPacket)
    (states : List StatePacket) :
    Option (Controller × StatePacket × List StatePacket × List String) :=
  let r := Controller.send_action c a
  let c1 := r.1
  if c1.match_sequences then
    Controller.send_and_recv_aux c1.action_sequence_last_queued c1 states
  else
    match states with
    | [] => none
    | s :: _ =>
      let r' := Controller.process_state c1 s
      some (r'.1, s, [], r'.2)

/-- One iteration of `Controller._state_thread_fn` (network.py lines
280-300) on one received payload: decode (a `none` packet — exiting or
decode error — just continues), log the first packet, track drops against
`state_sequence_last_received`, overwrite it, and put the state on the
one-item slot (a displaced packet is only debug-logged, not modelled). -/
def Controller.state_thread_step (c : Controller) (inp : Option StateDict) :
    Controller × List String :=
  match StatePacket.unpack inp with
  | (none, logs) => (c, logs)
  | (some s, logs) =>
    let firstLogs := if c.state_sequence_last_received.isNone
      then [recvFirstLog s.sequence] else []
    let dropLogs := Controller.track_dropped "Recv" s c.state_sequence_last_received
    let pr := LatestItemQueue.put c.state_queue s
    ({ c with state_sequence_last_received := some s.sequence,
              state_queue := pr.1 },
     logs ++ firstLogs ++ dropLogs)

/-- The state-thread loop over a finite stream of received payloads:
iterate `state_thread_step`, accumulating log lines. -/
def Controller.state_thread_run (c : Controller) :
    List (Option StateDict) → Controller × List String
  | [] => (c, [])
  | inp :: rest =>
    let r := Controller.state_thread_step c inp
    let r' := Controller.state_thread_run r.1 rest
    (r'.1, r.2 ++ r'.2)

/-! Concrete fixtures used by witnesses and counterexamples. -/

/-- A default action packet, sequence not yet stamped. -/
def a0 : ActionPacket := {}

/-- The action packet `a0` after the Controller stamped sequence 1. -/
def a1 : ActionPacket := { sequence := 1 }

/-- A freshly constructed Controller. -/
def c0 : Controller := Controller.init "localhost" true

/-- A stale state: generated before any action was applied
(`last_action_sequence = 0`). -/
def stalePkt : StatePacket := { sequence := 1, last_action_sequence := 0 }

/-- An up-to-date state: the simulator already applied action 5. -/
def goodPkt : StatePacket := { sequence := 2, last_action_sequence := 5 }

/-- The Controller state after `send_and_recv c0 a0 [stalePkt, goodPkt]`
returned `goodPkt`. -/
def cMatched : Controller :=
  { state_sequence_last_received := none
    state_sequence_last_processed := some 2
    action_sequence_last_queued := 1
    match_sequences := true
    action_queue := [a1]
    state_queue := none }

/-- A decoded dict whose `version` (99) differs from
`MCIO_PROTOCOL_VERSION` (0). -/
def mismatchDict : StateDict := { version := some 99 }

/-- A decoded dict with every `StatePacket` field present and well-typed,
plus one unknown extra field. -/
def extraDict : StateDict :=
  { version := some 0
    sequence := some 1
    last_action_sequence := some 0
    frame_png := some []
    health := some 20
    cursor_mode := some GLFW_CURSOR_NORMAL
    cursor_pos := some (0, 0)
    player_pos := some (0, 0, 0)
    player_pitch := some 0
    player_yaw := some 0
    inventory_main := some []
    inventory_armor := some []
    inventory_offhand := some []
    extra := ["modded_field"] }

/-- The first state packet after a simulator restart: its sequence (1) is
below the sequences seen before the restart. -/
def restartPkt : StatePacket := { sequence := 1 }

/-- A decoded dict that unpacks to `restartPkt`. -/
def restartDict : StateDict := { sequence := some 1 }

/-- A Controller that has already processed state sequence 50 on both
counters, with `restartPkt` sitting in the slot. -/
def cRestart : Controller :=
  { state_sequence_last_received := some 50
    state_sequence_last_processed := some 50
    action_sequence_last_queued := 7
    match_sequences := true
    action_queue := []
    state_queue := some restartPkt }

/-! Helper lemmas. -/

/-- Stamping an action leaves `match_sequences` unchanged. -/
theorem send_action_match_sequences (c : Controller) (a : ActionPacket) :
    (Controller.send_action c a).1.match_sequences = c.match_sequences := rfl

/-- Stamping an action advances the queued-sequence counter by one. -/
theorem send_action_last_queued (c : Controller) (a : ActionPacket) :
    (Controller.send_action c a).1.action_sequence_last_queued =
      c.action_sequence_last_queued + 1 := rfl

/-- Characterisation of a successful run of the matching loop: the returned
state is up to date, every skipped state is stale and produced a Skip-State
log line, and the stream is the skipped states followed by the returned one. -/
theorem send_and_recv_aux_spec (seq : Int) :
    ∀ (states : List StatePacket) (c c' : Controller) (st : StatePacket)
      (skipped : List StatePacket) (logs : List String),
      Controller.send_and_recv_aux seq c states = some (c', st, skipped, logs) →
      seq ≤ st.last_action_sequence ∧
      (∀ s ∈ skipped, s.last_action_sequence < seq ∧
        skipStateLog seq s.last_action_sequence ∈ logs) ∧
      ∃ rest, states = skipped ++ st :: rest := by
  intro states
  induction states with
  | nil =>
    intro c c' st skipped logs h
    simp [Controller.send_and_recv_aux] at h
  | cons s rest ih =>
    intro c c' st skipped logs h
    simp only [Controller.send_and_recv_aux] at h
    by_cases hc : seq ≤ s.last_action_sequence
    · rw [if_pos hc] at h
      simp only [Option.some.injEq, Prod.mk.injEq] at h
      obtain ⟨-, hst, hsk, -⟩ := h
      subst hst; subst hsk
      refine ⟨hc, by simp, ⟨rest, by simp⟩⟩
    · rw [if_neg hc] at h
      cases hrec : Controller.send_and_recv_aux seq (Controller.process_state c s).1 rest with
      | none => rw [hrec] at h; simp at h
      | some val =>
        obtain ⟨c'', st', skipped', logs'⟩ := val
        rw [hrec] at h
        simp only [Option.some.injEq, Prod.mk.injEq] at h
        obtain ⟨-, hst, hsk, hlogs⟩ := h
        subst hst; subst hsk; subst hlogs
        obtain ⟨h1, h2, rest', h3⟩ := ih _ _ _ _ _ hrec
        refine ⟨h1, ?_, ⟨rest', by simp [h3]⟩⟩
        intro x hx
        rcases List.mem_cons.mp hx with hxs | hx'
        · subst hxs
          exact ⟨lt_of_not_le hc, by
            exact List.mem_append_right _ (List.mem_cons_self _ _)⟩
        · obtain ⟨hlt, hmem⟩ := h2 x hx'
          exact ⟨hlt, List.mem_append_right _ (List.mem_cons_of_mem _ hmem)⟩

/-- C1: with matching enabled, `send_and_recv` only returns an observation
whose `last_action_sequence` is at least the sequence assigned to the
dispatched action (`action_sequence_last_queued + 1`); every observation
with a smaller `last_action_sequence` is skipped with a Skip-State log line
and is not the returned one. -/
theorem C1_match_returns_up_to_date (c : Controller) (a : ActionPacket)
    (states : List StatePacket) (c' : Controller) (st : StatePacket)
    (skipped : List StatePacket) (logs : List String)
    (hm : c.match_sequences = true)
    (h : Controller.send_and_recv c a states = some (c', st, skipped, logs)) :
    c.action_sequence_last_queued + 1 ≤ st.last_action_sequence ∧
    (∀ s ∈ skipped, s.last_action_sequence < c.action_sequence_last_queued + 1 ∧
      skipStateLog (c.action_sequence_last_queued + 1) s.last_action_sequence ∈ logs) ∧
    ∃ rest, states = skipped ++ st :: rest := by
  have hm' : (Controller.send_action c a).1.match_sequences = true := by
    rw [send_action_match_sequences]; exact hm
  simp only [Controller.send_and_recv, hm', if_true] at h
  rw [send_action_last_queued] at h
  exact send_and_recv_aux_spec _ _ _ _ _ _ _ h

/-- Witness for C1 at a concrete run: a fresh Controller sends `a0`
(assigned sequence 1) and receives the stream `[stalePkt, goodPkt]`;
`goodPkt` is returned, `stalePkt` skipped. -/
theorem C1_witness :
    c0.match_sequences = true ∧
    c0.action_sequence_last_queued + 1 ≤ goodPkt.last_action_sequence ∧
    (∀ s ∈ [stalePkt], s.last_action_sequence < c0.action_sequence_last_queued + 1 ∧
      skipStateLog (c0.action_sequence_last_queued + 1) s.last_action_sequence ∈
        [processFirstLog 1, skipStateLog 1 0]) ∧
    ∃ rest, [stalePkt, goodPkt] = [stalePkt] ++ goodPkt :: rest :=
  ⟨rfl,
    C1_match_returns_up_to_date c0 a0 [stalePkt, goodPkt] cMatched goodPkt
      [stalePkt] [processFirstLog 1, skipStateLog 1 0] rfl rfl⟩

/-- The matching loop skips any number of stale states and returns the
first up-to-date one: no skip budget exists. -/
theorem aux_skips_any_number (n : Nat) :
    ∀ c : Controller,
      ∃ c' logs,
        Controller.send_and_recv_aux 1 c (List.replicate n stalePkt ++ [goodPkt])
          = some (c', goodPkt, List.replicate n stalePkt, logs) := by
  induction n with
  | zero =>
    intro c
    refine ⟨(Controller.process_state c goodPkt).1,
      (Controller.process_state c goodPkt).2, ?_⟩
    simp [Controller.send_and_recv_aux]
    decide
  | succ n ih =>
    intro c
    obtain ⟨c', logs, h⟩ := ih (Controller.process_state c stalePkt).1
    refine ⟨c', (Controller.process_state c stalePkt).2 ++
      skipStateLog 1 stalePkt.last_action_sequence :: logs, ?_⟩
    rw [List.replicate_succ, List.cons_append]
    simp only [Controller.send_and_recv_aux]
    rw [if_neg (by decide), h]

/-- On an all-stale stream the matching loop never returns. -/
theorem aux_all_stale_never_returns (n : Nat) :
    ∀ c : Controller,
      Controller.send_and_recv_aux 1 c (List.replicate n stalePkt) = none := by
  induction n with
  | zero => intro c; rfl
  | succ n ih =>
    intro c
    rw [List.replicate_succ]
    simp only [Controller.send_and_recv_aux]
    rw [if_neg (by decide), ih]

set_option maxRecDepth 4096 in
/-- Counterexample to C2: a fresh Controller dispatches `a0` (sequence 1)
and then receives 300 stale observations followed by one up-to-date one.
The loop skips all 300 — beyond the claimed 256-skip budget — and returns
the final observation successfully instead of failing with MatchTimeout. -/
theorem C2_counterexample :
    (Controller.send_and_recv c0 a0
        (List.replicate 300 stalePkt ++ [goodPkt])).map
      (fun r => (r.2.1, r.2.2.1.length)) = some (goodPkt, 300) := by
  have hm' : (Controller.send_action c0 a0).1.match_sequences = true := by
    rw [send_action_match_sequences]; rfl
  have hq' : (Controller.send_action c0 a0).1.action_sequence_last_queued = 1 := by
    rw [send_action_last_queued]; decide
  simp only [Controller.send_and_recv, hm', if_true, hq']
  obtain ⟨c', logs, h⟩ := aux_skips_any_number 300 (Controller.send_action c0 a0).1
  rw [h]
  simp

/-- C2 amended: the matching loop of `send_and_recv` is unbounded — there
is no skip budget and no MatchTimeout. For every n, a stream of n stale
observations followed by an up-to-date one yields the up-to-date
observation after n skips; an all-stale stream never yields anything (the
loop keeps waiting forever). -/
theorem C2_skip_loop_unbounded (n : Nat) (c : Controller)
    (hm : c.match_sequences = true)
    (hq : c.action_sequence_last_queued = 0) :
    (Controller.send_and_recv c a0 (List.replicate n stalePkt ++ [goodPkt])).map
        (fun r => (r.2.1, r.2.2.1.length)) = some (goodPkt, n) ∧
    Controller.send_and_recv c a0 (List.replicate n stalePkt) = none := by
  have hm' : (Controller.send_action c a0).1.match_sequences = true := by
    rw [send_action_match_sequences]; exact hm
  have hq' : (Controller.send_action c a0).1.action_sequence_last_queued = 1 := by
    rw [send_action_last_queued, hq]; decide
  constructor
  · simp only [Controller.send_and_recv, hm', if_true, hq']
    obtain ⟨c', logs, h⟩ := aux_skips_any_number n (Controller.send_action c a0).1
    rw [h]
    simp
  · simp only [Controller.send_and_recv, hm', if_true, hq']
    exact aux_all_stale_never_returns n _

/-- Witness for the amended C2 at n = 3 on a fresh Controller. -/
theorem C2_witness :
    c0.match_sequences = true ∧
    c0.action_sequence_last_queued = 0 ∧
    ((Controller.send_and_recv c0 a0 (List.replicate 3 stalePkt ++ [goodPkt])).map
        (fun r => (r.2.1, r.2.2.1.length)) = some (goodPkt, 3) ∧
      Controller.send_and_recv c0 a0 (List.replicate 3 stalePkt) = none) :=
  ⟨rfl, rfl, C2_skip_loop_unbounded 3 c0 rfl rfl⟩

/-- C3: the constructor parameter `match_sequences` is ignored — line 179
of network.py assigns `self.match_sequences = True` unconditionally. A
Controller constructed with `match_sequences = false` still has the flag
set, and `send_and_recv` on it still runs the matching loop: with the
stream `[stalePkt, goodPkt]` it skips the first observation and returns
`goodPkt` instead of returning the first received observation `stalePkt`. -/
theorem C3_match_sequences_parameter_ignored :
    (Controller.init "localhost" false).match_sequences = true ∧
    (Controller.send_and_recv (Controller.init "localhost" false) a0
        [stalePkt, goodPkt]).map (fun r => r.2.1) = some goodPkt ∧
    (Controller.send_and_recv (Controller.init "localhost" false) a0
        [stalePkt, goodPkt]).map (fun r => r.2.1) ≠ some stalePkt := by
  refine ⟨rfl, rfl, ?_⟩
  decide

/-- Every sequence number assigned by a run of `send_action` calls exceeds
the counter value the Controller started from. -/
theorem send_actions_all_gt (as : List ActionPacket) :
    ∀ (c : Controller) (q : Int), q ∈ (Controller.send_actions c as).2 →
      c.action_sequence_last_queued < q := by
  induction as with
  | nil => intro c q hq; simp [Controller.send_actions] at hq
  | cons a rest ih =>
    intro c q hq
    simp only [Controller.send_actions, List.mem_cons] at hq
    rcases hq with h1 | h2
    · subst h1
      simp [Controller.send_action]
    · have := ih (Controller.send_action c a).1 q h2
      rw [send_action_last_queued] at this
      omega

/-- Sequence numbers assigned by successive `send_action` calls are
pairwise strictly increasing. -/
theorem send_actions_pairwise (as : List ActionPacket) :
    ∀ c : Controller, List.Pairwise (· < ·) (Controller.send_actions c as).2 := by
  induction as with
  | nil => intro c; simp [Controller.send_actions]
  | cons a rest ih =>
    intro c
    simp only [Controller.send_actions]
    refine List.Pairwise.cons ?_ (ih (Controller.send_action c a).1)
    intro q hq
    have := send_actions_all_gt rest (Controller.send_action c a).1 q hq
    rw [send_action_last_queued] at this
    simp only [Controller.send_action]
    omega

/-- C4: on a single Controller every assigned sequence strictly exceeds
every previously assigned one — each batch element exceeds the prior
counter value and the assigned list is pairwise strictly increasing — and
the sequence field is stamped by the Controller itself, to the incremented
counter, regardless of any caller-supplied value. -/
theorem C4_sequences_strictly_increase (c : Controller) (as : List ActionPacket)
    (a : ActionPacket) (q : Int)
    (hq : q ∈ (Controller.send_actions c as).2) :
    c.action_sequence_last_queued < q ∧
    List.Pairwise (· < ·) (Controller.send_actions c as).2 ∧
    (Controller.send_action c a).2.1.sequence = c.action_sequence_last_queued + 1 ∧
    (Controller.send_action c a).1.action_sequence_last_queued =
      c.action_sequence_last_queued + 1 :=
  ⟨send_actions_all_gt as c q hq, send_actions_pairwise as c, rfl, rfl⟩

/-- Witness for C4: a fresh Controller stamps `[a0, a0]` with sequences
1 and 2; the membership hypothesis is discharged at q = 1. -/
theorem C4_witness :
    c0.action_sequence_last_queued < 1 ∧
    List.Pairwise (· < ·) (Controller.send_actions c0 [a0, a0]).2 ∧
    (Controller.send_action c0 a0).2.1.sequence = c0.action_sequence_last_queued + 1 ∧
    (Controller.send_action c0 a0).1.action_sequence_last_queued =
      c0.action_sequence_last_queued + 1 :=
  C4_sequences_strictly_increase c0 [a0, a0] a0 1 (by decide)

/-- Counterexample to C5: `send_action` has no return statement — its
Python return value is `None`, not the assigned sequence number (which is
1 here). -/
theorem C5_counterexample :
    (Controller.send_action c0 a0).2.2 = none ∧
    (Controller.send_action c0 a0).2.2 ≠
      some (Controller.send_action c0 a0).2.1.sequence := by
  refine ⟨rfl, ?_⟩
  decide

/-- C5 amended: `send_action` stamps the action with the incremented
counter, appends the stamped packet to the action queue (non-blocking,
modelled as a total function), and returns `None` — not the assigned
sequence. -/
theorem C5_send_action_stamps_and_enqueues (c : Controller) (a : ActionPacket) :
    (Controller.send_action c a).2.1.sequence = c.action_sequence_last_queued + 1 ∧
    (Controller.send_action c a).1.action_queue =
      c.action_queue ++ [(Controller.send_action c a).2.1] ∧
    (Controller.send_action c a).1.action_sequence_last_queued =
      c.action_sequence_last_queued + 1 ∧
    (Controller.send_action c a).2.2 = none :=
  ⟨rfl, rfl, rfl, rfl⟩

/-- Counterexample to C6: a payload whose `version` field is 99 (while
`MCIO_PROTOCOL_VERSION` is 0) decodes successfully — `unpack` performs no
version check, so the mismatching packet is accepted, not rejected. -/
theorem C6_counterexample :
    (StatePacket.unpack (some mismatchDict)).1.map StatePacket.version = some 99 ∧
    (StatePacket.unpack (some mismatchDict)).1.isSome = true ∧
    (99 : Int) ≠ MCIO_PROTOCOL_VERSION := by
  refine ⟨?_, ?_, ?_⟩ <;> decide

/-- C6 amended: `StatePacket.unpack` never inspects the `version` field.
Every payload without unknown keys is accepted, and the decoded packet
carries whatever version the payload supplied (defaulting to
`MCIO_PROTOCOL_VERSION` when absent); no VersionMismatch rejection exists. -/
theorem C6_no_version_check (d : StateDict) (h : d.extra = []) :
    (StatePacket.unpack (some d)).1.map StatePacket.version =
      some (d.version.getD MCIO_PROTOCOL_VERSION) ∧
    (StatePacket.unpack (some d)).1.isSome = true := by
  simp [StatePacket.unpack, h]

/-- Witness for the amended C6 at the concrete mismatching payload. -/
theorem C6_witness :
    mismatchDict.extra = [] ∧
    ((StatePacket.unpack (some mismatchDict)).1.map StatePacket.version =
        some (mismatchDict.version.getD MCIO_PROTOCOL_VERSION) ∧
      (StatePacket.unpack (some mismatchDict)).1.isSome = true) :=
  ⟨rfl, C6_no_version_check mismatchDict rfl⟩

/-- Counterexample to C7: a payload with every `StatePacket` field present
and well-typed plus one unknown extra field (`extraDict`) does not decode:
`cls(**decoded_dict)` raises `TypeError` on the unexpected keyword, so
`unpack` returns `None` — the packet is dropped, not accepted with the
extra field ignored. -/
theorem C7_counterexample :
    (StatePacket.unpack (some extraDict)).1 = none ∧ extraDict.extra ≠ [] := by
  refine ⟨?_, ?_⟩ <;> decide

/-- C7 amended: unknown extra fields in a decoded payload make the decode
fail — `unpack` returns no packet and logs a decode error — instead of
being ignored. -/
theorem C7_extra_fields_rejected (d : StateDict) (h : d.extra ≠ []) :
    (StatePacket.unpack (some d)).1 = none ∧
    (StatePacket.unpack (some d)).2 = decodeErrorLogs := by
  simp [StatePacket.unpack, h]

/-- Witness for the amended C7 at the concrete payload `extraDict`. -/
theorem C7_witness :
    extraDict.extra ≠ [] ∧
    ((StatePacket.unpack (some extraDict)).1 = none ∧
      (StatePacket.unpack (some extraDict)).2 = decodeErrorLogs) :=
  ⟨by decide, C7_extra_fields_rejected extraDict (by decide)⟩

/-- C8: a payload that fails to decode (malformed CBOR or a schema
mismatch) is absorbed: the decode emits log lines (never empty), yields no
packet, the state-thread step leaves the Controller unchanged, and the
state-thread loop continues with the remaining payloads — no error
surfaces. -/
theorem C8_decode_errors_absorbed (c : Controller) (inp : Option StateDict)
    (inps : List (Option StateDict))
    (h : (StatePacket.unpack inp).1 = none) :
    Controller.state_thread_step c inp = (c, (StatePacket.unpack inp).2) ∧
    (StatePacket.unpack inp).2 ≠ [] ∧
    Controller.state_thread_run c (inp :: inps) =
      ((Controller.state_thread_run c inps).1,
        (StatePacket.unpack inp).2 ++ (Controller.state_thread_run c inps).2) := by
  have hstep : Controller.state_thread_step c inp = (c, (StatePacket.unpack inp).2) := by
    cases hu : StatePacket.unpack inp with
    | mk o logs =>
      cases o with
      | none => simp [Controller.state_thread_step, hu]
      | some s => rw [hu] at h; simp at h
  have hlogs : (StatePacket.unpack inp).2 ≠ [] := by
    cases inp with
    | none => simp [StatePacket.unpack, cborLoadErrorLog]
    | some d =>
      by_cases he : d.extra = []
      · exfalso
        have hs : (StatePacket.unpack (some d)).1.isSome = true := by
          simp [StatePacket.unpack, he]
        rw [h] at hs
        simp at hs
      · simp [StatePacket.unpack, he, decodeErrorLogs]
  refine ⟨hstep, hlogs, ?_⟩
  simp only [Controller.state_thread_run, hstep]

/-- Witness for C8: malformed CBOR (`none` payload) on a fresh Controller
followed by an empty remainder. -/
theorem C8_witness :
    (StatePacket.unpack (none : Option StateDict)).1 = none ∧
    (Controller.state_thread_step c0 none =
        (c0, (StatePacket.unpack (none : Option StateDict)).2) ∧
      (StatePacket.unpack (none : Option StateDict)).2 ≠ [] ∧
      Controller.state_thread_run c0 [none] =
        ((Controller.state_thread_run c0 []).1,
          (StatePacket.unpack (none : Option StateDict)).2 ++
            (Controller.state_thread_run c0 []).2)) :=
  ⟨rfl, C8_decode_errors_absorbed c0 none [] rfl⟩

/-- Putting an item always fills the slot with that item. -/
theorem latest_put_fst {α : Type} (slot : Option α) (item : α) :
    (LatestItemQueue.put slot item).1 = some item := by
  cases slot <;> rfl

/-- C9: `put` on the one-slot queue always succeeds, storing the new item
and reporting `true` exactly when a previously stored item was discarded
(`false` on an empty slot); after any nonempty run of puts with no
interleaving `get`, a single `get` returns the last item put, emptying the
slot — the earlier items having been displaced. -/
theorem C9_latest_item_queue (α : Type) (slot : Option α) (item : α)
    (items : List α) (last : α) :
    LatestItemQueue.put slot item = (some item, slot.isSome) ∧
    LatestItemQueue.get (LatestItemQueue.putAll slot (items ++ [last])) =
      some (last, none) := by
  constructor
  · cases slot <;> rfl
  · rw [LatestItemQueue.putAll, List.foldl_append]
    simp only [List.foldl_cons, List.foldl_nil]
    rw [latest_put_fst]
    rfl

/-- C10: when an arriving state carries a sequence less than or equal to
the last recorded one (simulator restart), `_track_dropped` treats it as a
start/reset and logs nothing, while `recv_state` still overwrites
`state_sequence_last_processed` and the state-thread step still overwrites
`state_sequence_last_received` with the new, lower sequence. -/
theorem C10_restart_resets_counters (c : Controller) (s : StatePacket)
    (l lr : Int) (tag : String) (inp : Option StateDict) (logs0 : List String)
    (h1 : c.state_sequence_last_processed = some l) (h2 : s.sequence ≤ l)
    (h3 : c.state_queue = some s)
    (h4 : c.state_sequence_last_received = some lr) (h5 : s.sequence ≤ lr)
    (h6 : StatePacket.unpack inp = (some s, logs0)) :
    Controller.track_dropped tag s (some l) = [] ∧
    Controller.recv_state c =
      some ({ c with state_queue := none,
                     state_sequence_last_processed := some s.sequence }, s, []) ∧
    (Controller.state_thread_step c inp).1.state_sequence_last_received =
      some s.sequence ∧
    (Controller.state_thread_step c inp).2 = logs0 := by
  refine ⟨?_, ?_, ?_, ?_⟩
  · simp [Controller.track_dropped, h2]
  · simp [Controller.recv_state, h3, Controller.process_state, h1,
      Controller.track_dropped, h2]
  · simp [Controller.state_thread_step, h6, h4, Controller.track_dropped, h5]
  · simp [Controller.state_thread_step, h6, h4, Controller.track_dropped, h5]

/-- Witness for C10: `cRestart` has both counters at 50 and the
post-restart packet `restartPkt` (sequence 1) in the slot; the decoded dict
`restartDict` unpacks to it with no log lines. -/
theorem C10_witness :
    cRestart.state_sequence_last_processed = some 50 ∧
    restartPkt.sequence ≤ 50 ∧
    cRestart.state_queue = some restartPkt ∧
    cRestart.state_sequence_last_received = some 50 ∧
    StatePacket.unpack (some restartDict) = (some restartPkt, []) ∧
    (Controller.track_dropped "Recv" restartPkt (some 50) = [] ∧
      Controller.recv_state cRestart =
        some ({ cRestart with
                state_queue := none
                state_sequence_last_processed := some restartPkt.sequence },
          restartPkt, []) ∧
      (Controller.state_thread_step cRestart (some restartDict)).1.state_sequence_last_received =
        some restartPkt.sequence ∧
      (Controller.state_thread_step cRestart (some restartDict)).2 = []) :=
  ⟨rfl, by decide, rfl, rfl, rfl,
    C10_restart_resets_counters cRestart restartPkt 50 50 "Recv"
      (some restartDict) [] rfl (by decide) rfl rfl (by decide) rfl⟩
